import Mathlib

/-!
Shallow embedding of the core of the `ollama-code-assistant` (OCA) repository:
the Git wrapper (`oca/utils/git.py`), the Ollama client's prompt assembly and
response extraction (`oca/core/ollama.py`), and the session layer
(`oca/core/session.py`).  External effects (the `git` subprocess, the HTTP
endpoint, the filesystem clock) are modelled as oracle parameters; the Python
control flow around them is translated faithfully.
-/

namespace OCA

/-- Result of running one external command: exit code, captured stdout and
stderr.  Models `subprocess.CompletedProcess` as used by `GitWrapper._run_git`. -/
structure CmdResult where
  exitCode : Nat
  stdout : String
  stderr : String
deriving Repr, DecidableEq

/-- Error raised by Git operations; carries the message string
(`class GitError(Exception)` in `oca/utils/git.py`). -/
structure GitError where
  msg : String
deriving Repr, DecidableEq

/-- An oracle for the external `git` executable: maps the full argument
vector (including the leading `git`) to the process result. -/
def GitExec : Type := List String → CmdResult

/-- Embeds `GitWrapper._run_git` (`oca/utils/git.py:28`): builds
`cmd = ['git'] + args`, runs it with `check=True`, and turns a non-zero
exit (Python `CalledProcessError`) into a `GitError` whose message is
`"Git command failed: <cmd>\n<stderr>"`. -/
def run_git (exec : GitExec) (args : List String) : Except GitError CmdResult :=
  let cmd := ["git"] ++ args
  let r := exec cmd
  if r.exitCode = 0 then
    Except.ok r
  else
    Except.error ⟨"Git command failed: " ++ String.intercalate " " cmd ++ "\n" ++ r.stderr⟩

/-- Embeds `GitWrapper.has_changes` (`oca/utils/git.py:167`): runs
`git status --porcelain`, returns whether the stripped stdout is non-empty,
and returns `false` when the command raises `GitError` (the `except GitError`
branch swallows the failure). -/
def has_changes (exec : GitExec) : Bool :=
  match run_git exec ["status", "--porcelain"] with
  | Except.ok r => !r.stdout.trim.isEmpty
  | Except.error _ => false

/-- Version of `hasChanges` written from the spec claim's words for comparison
(claim C7: every operation "fails with a RepositoryError (GitError) when its
underlying command exits non-zero"): the error of the underlying command is
propagated instead of caught. -/
def has_changes_claim (exec : GitExec) : Except GitError Bool :=
  (run_git exec ["status", "--porcelain"]).map fun r => !r.stdout.trim.isEmpty

/-- A command oracle on which every git invocation exits non-zero. -/
def failingExec : GitExec := fun _ => ⟨1, "", "fatal: not a git repository"⟩

/-- Embeds `GitWrapper.create_worktree` (`oca/utils/git.py:78`).  The
filesystem check `worktree_path.exists()` is an oracle boolean.  Returns the
operation outcome together with the list of git command vectors invoked. -/
def create_worktree (exec : GitExec) (pathExists : Bool)
    (worktreePath branchName : String) (baseBranch : Option String) :
    Except GitError Unit × List (List String) :=
  if pathExists then
    (Except.error ⟨"Worktree path already exists: " ++ worktreePath⟩, [])
  else
    let args := ["worktree", "add", "-b", branchName, worktreePath] ++ baseBranch.toList
    ((run_git exec args).map fun _ => (), [["git"] ++ args])

/-- Decimal digit character of `n % 10`, as produced by decimal formatting. -/
def digitChar (n : Nat) : Char := Char.ofNat (48 + n % 10)

/-- Two-digit zero-padded decimal rendering, as `strftime` `%m`, `%d`, `%H`,
`%M`, `%S` produce for in-range field values. -/
def pad2 (n : Nat) : String := String.mk [digitChar (n / 10), digitChar n]

/-- Four-digit decimal rendering, as `strftime` `%Y` produces for the years
1000..9999 that `datetime.now()` yields in practice. -/
def year4 (n : Nat) : String :=
  String.mk [digitChar (n / 1000), digitChar (n / 100), digitChar (n / 10), digitChar n]

/-- A clock value, the fields of `datetime.now()` that the branch-name
timestamp consumes. -/
structure ClockTime where
  year : Nat
  month : Nat
  day : Nat
  hour : Nat
  minute : Nat
  second : Nat
deriving Repr, DecidableEq

/-- Embeds `datetime.now().strftime("%Y%m%d-%H%M%S")` as used by
`GitWrapper.generate_branch_name` (`oca/utils/git.py:152`), for clock values
with a four-digit year. -/
def strftime_stamp (t : ClockTime) : String :=
  year4 t.year ++ pad2 t.month ++ pad2 t.day ++ "-" ++
    pad2 t.hour ++ pad2 t.minute ++ pad2 t.second

/-- Embeds `GitWrapper.generate_branch_name` (`oca/utils/git.py:143`) with the
clock injected: `f"{prefix}/session-{timestamp}"`; the Python default for the
prefix parameter is `"oca"`. -/
def generate_branch_name (t : ClockTime) (pre : String) : String :=
  pre ++ "/session-" ++ strftime_stamp t

/-- Python truthiness of an optional string argument (`if context:` in
`OllamaClient.generate`): true iff present and non-empty. -/
def truthy (o : Option String) : Bool := decide (o.getD "" ≠ "")

/-- Embeds the prompt-assembly block of `OllamaClient.generate`
(`oca/core/ollama.py:52-57`):
`full_prompt = prompt`; if `system_prompt` is truthy,
`full_prompt = f"System: {system_prompt}\n\nUser: {prompt}"`; if `context`
is truthy, `full_prompt = f"Context:\n{context}\n\n{full_prompt}"`. -/
def build_full_prompt (prompt : String) (system_prompt context : Option String) : String :=
  let fp := prompt
  let fp :=
    if truthy system_prompt then
      "System: " ++ system_prompt.getD "" ++ "\n\nUser: " ++ prompt
    else fp
  if truthy context then "Context:\n" ++ context.getD "" ++ "\n\n" ++ fp else fp

/-- The apostrophe character, used by Python `str()` of a dict to quote keys
and values. -/
def sq : String := String.singleton (Char.ofNat 39)

/-- Python `str()` of a dict whose keys and values are strings, e.g.
`str({"model": "testmodel"})`. -/
def pyStrDict (kvs : List (String × String)) : String :=
  "\x7b" ++
    String.intercalate ", "
      (kvs.map fun kv => sq ++ kv.1 ++ sq ++ ": " ++ sq ++ kv.2 ++ sq) ++
  "\x7d"

/-- Embeds the response-extraction step of `OllamaClient.generate`
(`oca/core/ollama.py:103-112`) after a 200-status request whose body parsed
as the JSON object `result` (modelled as a key/value list): if a `response`
field is present its stripped value is returned, otherwise `str(result)` is
returned. -/
def extract_response_field (result : List (String × String)) : String :=
  match result.lookup "response" with
  | some v => v.trim
  | none => pyStrDict result

/-- Names of the methods the source `class GitWrapper` (`oca/utils/git.py`)
actually defines, in definition order (besides `__init__`). -/
def gitwrapper_methods : List String :=
  ["_run_git", "is_git_repo", "init_repo", "get_current_branch", "create_worktree",
   "remove_worktree", "list_worktrees", "generate_branch_name", "commit", "has_changes"]

/-- Names of the methods `Session.create_commit` (`oca/core/session.py:227-229`)
invokes on its git wrapper while assembling the generation context when there
are changes. -/
def create_commit_git_calls : List String := ["has_changes", "get_status", "get_diff"]

/-- Embeds the context assembly of `Session.create_commit`
(`oca/core/session.py:225-234`): when `has_changes()` is true it accesses
`get_status`/`get_diff` on the git wrapper; an access to a method the wrapper
does not define raises `AttributeError`, which the blanket `except Exception`
turns into the degraded context `f"Could not analyze changes: {e}"`. -/
def create_commit_context (methods : List String) (hasChg : Bool)
    (status diff errText : String) : String :=
  if hasChg then
    if methods.contains "get_status" && methods.contains "get_diff" then
      "Git Status:\n" ++ status ++ "\n\nGit Diff:\n" ++ diff.take 2000 ++ "..."
    else
      "Could not analyze changes: " ++ errText
  else
    "No changes detected in working directory."

/-- State a Session's log-and-commit step operates on: the appended session-log
entries and the commit messages of performed commits. -/
structure SessState where
  log : List String
  commits : List String
deriving Repr, DecidableEq

/-- One session-log entry as written by `Session._commit_session_log`
(`oca/core/session.py:404-411`), with the `datetime.now().isoformat()`
timestamp injected. -/
def session_log_entry (command ts prompt response : String) : String :=
  "\n--- OCA Session Entry ---\nCommand: " ++ command ++ "\nTimestamp: " ++ ts ++
    "\nPrompt: " ++ prompt ++ "\nResponse: " ++ response ++ "\n---\n"

/-- Embeds `Session._commit_session_log` (`oca/core/session.py:389-422`).
`writeRes` is the outcome of the mkdir-and-append filesystem step, `hasChg`
the outcome of `git.has_changes()`, `commitRes` the outcome of `git.commit`.
The whole body is inside `try: ... except Exception:`, so every failure is
swallowed and the function always returns a state: a failed write appends
nothing and commits nothing; after a successful append, a commit is attempted
iff there are changes, and a failed commit leaves the commit list unchanged. -/
def commit_session_log (writeRes : Except String Unit) (hasChg : Bool)
    (commitRes : Except String Unit) (commitMsg entry : String)
    (st : SessState) : SessState :=
  match writeRes with
  | Except.error _ => st
  | Except.ok _ =>
    let st := { st with log := st.log ++ [entry] }
    if hasChg then
      match commitRes with
      | Except.ok _ => { st with commits := st.commits ++ [commitMsg] }
      | Except.error _ => st
    else st

/-- Commit message built by `Session.fix` (`oca/core/session.py:107-112`):
`f"OCA fix: {prompt}"` plus optional file and truncated error suffixes. -/
def fix_commit_msg (prompt : String) (target_file error_message : Option String) : String :=
  let m := "OCA fix: " ++ prompt
  let m := if truthy target_file then m ++ " (file: " ++ target_file.getD "" ++ ")" else m
  if truthy error_message then
    m ++ " (error: " ++ (error_message.getD "").take 50 ++ "...)"
  else m

/-- Commit message built by `Session.explain` (`oca/core/session.py:67-70`). -/
def explain_commit_msg (prompt : String) (target_file : Option String) : String :=
  let m := "OCA explain: " ++ prompt
  if truthy target_file then m ++ " (file: " ++ target_file.getD "" ++ ")" else m

/-- Embeds `Session.fix` (`oca/core/session.py:78-118`) from the generation
call onward.  `genRes` is the outcome of `ollama.generate` (an `OllamaError`
becomes `SessionError("Failed to generate fix: ...")`); on success, if
`auto_commit` is set, `_commit_session_log` runs with the given oracles and
the response is returned. -/
def fix_run (genRes : Except String String) (auto_commit : Bool)
    (writeRes : Except String Unit) (hasChg : Bool) (commitRes : Except String Unit)
    (prompt : String) (error_message target_file : Option String) (ts : String)
    (st : SessState) : Except String String × SessState :=
  match genRes with
  | Except.error e => (Except.error ("Failed to generate fix: " ++ e), st)
  | Except.ok response =>
    if auto_commit then
      (Except.ok response,
        commit_session_log writeRes hasChg commitRes
          (fix_commit_msg prompt target_file error_message)
          (session_log_entry "fix" ts prompt response) st)
    else
      (Except.ok response, st)

/-- Embeds `Session.explain` (`oca/core/session.py:42-76`) from the generation
call onward, in the same way as `fix_run`. -/
def explain_run (genRes : Except String String) (auto_commit : Bool)
    (writeRes : Except String Unit) (hasChg : Bool) (commitRes : Except String Unit)
    (prompt : String) (target_file : Option String) (ts : String)
    (st : SessState) : Except String String × SessState :=
  match genRes with
  | Except.error e => (Except.error ("Failed to generate explanation: " ++ e), st)
  | Except.ok response =>
    if auto_commit then
      (Except.ok response,
        commit_session_log writeRes hasChg commitRes
          (explain_commit_msg prompt target_file)
          (session_log_entry "explain" ts prompt response) st)
    else
      (Except.ok response, st)

/-- Outcome of one run of `SessionManager.create_session`: what propagates to
the caller, how many times `remove_worktree` was invoked, and the warning the
swallowed cleanup failure would have printed. -/
structure SessionOutcome where
  result : Except String Unit
  removeCalls : Nat
  cleanupWarning : Option String
deriving Repr

/-- Embeds the non-dry-run path of `SessionManager.create_session`
(`oca/core/session.py:529-579`).  Oracles: `isRepo` for `git.is_git_repo()`,
`createW` for `git.create_worktree(...)`, `existsAfterFailedCreate` for
whether the worktree path exists when creation raised after partial state,
`callback` for the `yield session` body, `removeW` for
`git.remove_worktree(..., force=True)`.  Any exception from the `try` body is
re-raised as `SessionError(f"Failed to create session: {e}")`; the `finally`
block removes the worktree iff its path exists and swallows any cleanup
exception (recording only a warning). -/
def create_session_run (isRepo : Bool) (createW : Except String Unit)
    (existsAfterFailedCreate : Bool) (callback : Except String Unit)
    (removeW : Except String Unit) : SessionOutcome :=
  if isRepo = false then
    ⟨Except.error "Not a Git repository. Run 'oca init' first.", 0, none⟩
  else
    let bodyResult : Except String Unit :=
      match createW with
      | Except.error e => Except.error ("Failed to create session: " ++ e)
      | Except.ok _ =>
        match callback with
        | Except.ok _ => Except.ok ()
        | Except.error e => Except.error ("Failed to create session: " ++ e)
    let worktreeExists : Bool :=
      match createW with
      | Except.ok _ => true
      | Except.error _ => existsAfterFailedCreate
    if worktreeExists then
      match removeW with
      | Except.ok _ => ⟨bodyResult, 1, none⟩
      | Except.error e => ⟨bodyResult, 1, some ("Warning: Could not cleanup worktree: " ++ e)⟩
    else
      ⟨bodyResult, 0, none⟩

/-- Side effects a mock (dry-run) session operation could perform; the
dry-run lambdas of `SessionManager.create_session`
(`oca/core/session.py:520-525`) perform none. -/
inductive TaskEffect
  | fsWrite (path : String)
  | command (argv : List String)
  | network (url : String)
deriving Repr, DecidableEq

/-- Dry-run `explain` (`oca/core/session.py:520`):
`lambda prompt, target_file=None: f"DRY RUN: Would explain '{prompt}'"`. -/
def mock_explain (prompt : String) (_target_file : Option String) :
    String × List TaskEffect :=
  ("DRY RUN: Would explain " ++ sq ++ prompt ++ sq, [])

/-- Dry-run `fix` (`oca/core/session.py:521`). -/
def mock_fix (prompt : String) (_error_message _target_file : Option String) :
    String × List TaskEffect :=
  ("DRY RUN: Would fix " ++ sq ++ prompt ++ sq, [])

/-- Dry-run `refactor` (`oca/core/session.py:522`). -/
def mock_refactor (prompt : String) (_pattern _target_file : Option String) :
    String × List TaskEffect :=
  ("DRY RUN: Would refactor " ++ sq ++ prompt ++ sq, [])

/-- Dry-run `generate_tests` (`oca/core/session.py:523`). -/
def mock_generate_tests (prompt : String) (_coverage : Bool)
    (_style _target_file : Option String) : String × List TaskEffect :=
  ("DRY RUN: Would generate tests " ++ sq ++ prompt ++ sq, [])

/-- Dry-run `create_commit` (`oca/core/session.py:524`):
`f"DRY RUN: Would create commit '{message or 'auto-generated'}'"`. -/
def mock_create_commit (message _commit_type : Option String) :
    String × List TaskEffect :=
  ("DRY RUN: Would create commit " ++ sq ++
      (if truthy message then message.getD "" else "auto-generated") ++ sq, [])

/-- Dry-run `search_code` (`oca/core/session.py:525`). -/
def mock_search_code (prompt : String) (_regex _search_type : Option String) :
    String × List TaskEffect :=
  ("DRY RUN: Would search " ++ sq ++ prompt ++ sq, [])

/-- Length of the four-character year rendering. -/
theorem year4_length (n : Nat) : (year4 n).length = 4 := rfl

/-- Length of the two-character zero-padded rendering. -/
theorem pad2_length (n : Nat) : (pad2 n).length = 2 := rfl

/-- A string of positive length is not the empty string. -/
theorem ne_empty_of_length_pos (s : String) (h : 0 < s.length) : s ≠ "" := by
  intro he; rw [he] at h; simp at h

/-- A four-part concatenation with a non-empty first part is non-empty. -/
theorem append4_ne_empty (a b c d : String) (ha : 0 < a.length) :
    a ++ b ++ c ++ d ≠ "" := by
  apply ne_empty_of_length_pos
  simp [String.length_append]
  omega

/-- C1: in non-dry-run mode, once the worktree has been created
(`git.create_worktree` succeeded), `SessionManager.create_session` invokes
`remove_worktree` (with `force=True`) exactly once on exit — both when the
callback returns normally and when it raises; the caller sees the callback's
outcome (an error wrapped as `SessionError("Failed to create session: ...")`),
and the outcome propagated to the caller does not depend on whether the
cleanup operation itself raises. -/
theorem C1_cleanup_exactly_once (ex : Bool) (cb rw : Except String Unit) :
    (create_session_run true (Except.ok ()) ex cb rw).removeCalls = 1 ∧
    ((create_session_run true (Except.ok ()) ex cb rw).result =
      match cb with
      | Except.ok _ => Except.ok ()
      | Except.error e => Except.error ("Failed to create session: " ++ e)) ∧
    (∀ rw', (create_session_run true (Except.ok ()) ex cb rw).result =
      (create_session_run true (Except.ok ()) ex cb rw').result) := by
  refine ⟨?_, ?_, fun rw' => ?_⟩ <;>
    cases cb <;> cases rw <;> simp [create_session_run] <;>
    cases rw' <;> simp [create_session_run]

/-- C2: evaluation of the code at the repository's own test input
(`test_generate_missing_response_key`): for a 200-status response whose JSON
object lacks the `response` field, `OllamaClient.generate` returns
`str(result)` — here the 22-character string `"{'model': 'testmodel'}"` —
and NOT the empty string that the claim, the spec and the repository's test
require. -/
theorem C2_missing_response_field_not_empty :
    extract_response_field [("model", "testmodel")] =
      pyStrDict [("model", "testmodel")] ∧
    extract_response_field [("model", "testmodel")] ≠ "" ∧
    (extract_response_field [("model", "testmodel")]).length = 22 := by
  refine ⟨rfl, by decide, by decide⟩

/-- C3: the source `class GitWrapper` defines neither `get_status` nor
`get_diff`, although `Session.create_commit` invokes both on its git wrapper;
consequently, whenever `has_changes()` is true, the attribute access raises
`AttributeError` and the generation context degrades to
`"Could not analyze changes: ..."` instead of containing the status and
diff text. -/
theorem C3_get_diff_get_status_missing :
    gitwrapper_methods.contains "get_status" = false ∧
    gitwrapper_methods.contains "get_diff" = false ∧
    create_commit_git_calls.contains "get_status" = true ∧
    create_commit_git_calls.contains "get_diff" = true ∧
    (∀ status diff errText,
      create_commit_context gitwrapper_methods true status diff errText =
        "Could not analyze changes: " ++ errText) := by
  refine ⟨by decide, by decide, by decide, by decide, fun s d e => rfl⟩

/-- C4: `GitWrapper.create_worktree` with an already-existing target path
fails with the path-exists `GitError` and invokes no git command at all;
with a fresh path it invokes exactly the single command
`git worktree add -b <branchName> <path>` (plus the base branch when given),
creating branch `branchName` checked out at the path. -/
theorem C4_create_worktree_precheck (exec : GitExec) (wp bn : String)
    (bb : Option String) :
    create_worktree exec true wp bn bb =
      (Except.error ⟨"Worktree path already exists: " ++ wp⟩, []) ∧
    (create_worktree exec false wp bn bb).2 =
      [["git", "worktree", "add", "-b", bn, wp] ++ bb.toList] := by
  constructor <;> rfl

/-- C5 counterexample: at the claim's own example
`generate("Fix it", systemPrompt="S", context="C")`, the transmitted text is
`"Context:\nC\n\nSystem: S\n\nUser: Fix it"`, which does NOT start with
`"C\n\n"` — the implementation prefixes the context with a `"Context:\n"`
header, so the claimed leading substring is absent from the front. -/
theorem C5_counterexample_context_header :
    build_full_prompt "Fix it" (some "S") (some "C") =
      "Context:\nC\n\nSystem: S\n\nUser: Fix it" ∧
    ("C\n\n".toList.isPrefixOf
      (build_full_prompt "Fix it" (some "S") (some "C")).toList) = false := by
  refine ⟨by decide, by decide⟩

/-- C5 (amended): with both optional parts present and non-empty, the
transmitted text is exactly `"Context:\n" ++ context ++ "\n\n"` followed by
the block `"System: " ++ systemPrompt ++ "\n\nUser: " ++ prompt` — the
context comes first (under a `Context:` header), then the system-tagged
block; with no systemPrompt the bare prompt stands in that position. -/
theorem C5_amended_prompt_assembly (p s c : String) (hs : s ≠ "") (hc : c ≠ "") :
    build_full_prompt p (some s) (some c) =
      "Context:\n" ++ c ++ "\n\n" ++ ("System: " ++ s ++ "\n\nUser: " ++ p) ∧
    build_full_prompt p none (some c) = "Context:\n" ++ c ++ "\n\n" ++ p := by
  constructor <;> simp [build_full_prompt, truthy, hs, hc, String.append_assoc]

/-- C5 witness: the amended assembly theorem instantiated at the example
`generate("Fix it", systemPrompt="S", context="C")`. -/
theorem C5_amended_prompt_assembly_witness :
    (("S" : String) ≠ "" ∧ ("C" : String) ≠ "") ∧
    build_full_prompt "Fix it" (some "S") (some "C") =
      "Context:\n" ++ "C" ++ "\n\n" ++ ("System: " ++ "S" ++ "\n\nUser: " ++ "Fix it") :=
  ⟨⟨by decide, by decide⟩,
    (C5_amended_prompt_assembly "Fix it" "S" "C" (by decide) (by decide)).1⟩

/-- C6: a successful `Session.fix` with auto-commit enabled, a successful log
write, `has_changes()` true and a successful git commit appends exactly one
session-log entry and performs exactly one commit, and still returns the
generated response; with auto-commit disabled the session state is untouched
— zero commits (and zero log entries) regardless of pending changes or of the
oracles' outcomes. -/
theorem C6_fix_one_entry_one_commit (resp prompt ts : String)
    (em tf : Option String) (st : SessState) :
    ((fix_run (Except.ok resp) true (Except.ok ()) true (Except.ok ())
        prompt em tf ts st).2.log =
      st.log ++ [session_log_entry "fix" ts prompt resp]) ∧
    ((fix_run (Except.ok resp) true (Except.ok ()) true (Except.ok ())
        prompt em tf ts st).2.commits =
      st.commits ++ [fix_commit_msg prompt tf em]) ∧
    ((fix_run (Except.ok resp) true (Except.ok ()) true (Except.ok ())
        prompt em tf ts st).1 = Except.ok resp) ∧
    (∀ (w c : Except String Unit) (hc : Bool),
      (fix_run (Except.ok resp) false w hc c prompt em tf ts st).2 = st ∧
      (fix_run (Except.ok resp) false w hc c prompt em tf ts st).1 =
        Except.ok resp) := by
  refine ⟨?_, ?_, rfl, fun w c hc => ⟨rfl, rfl⟩⟩ <;>
    simp [fix_run, commit_session_log]

/-- C7 counterexample: on a command oracle whose `git status --porcelain`
exits non-zero, the underlying `_run_git` does produce a `GitError`
(`run_git` is in the error state), yet `has_changes` does not fail — it
catches the error and returns the ordinary value `false`; the variant
`has_changes_claim`, written from the claim's words, errors here instead. -/
theorem C7_counterexample_swallowed_error :
    (run_git failingExec ["status", "--porcelain"]).isOk = false ∧
    has_changes failingExec = false ∧
    (has_changes_claim failingExec).isOk = false := by
  refine ⟨by decide, by decide, by decide⟩

/-- C7 (amended): `has_changes` returns `false` (instead of failing with
`GitError`) when its underlying command exits non-zero, and for a zero-exit
command it returns `true` iff the stripped porcelain-status output is
non-empty: for every command oracle, `has_changes` is `true` exactly when
`git status --porcelain` exits 0 with non-empty stripped stdout. -/
theorem C7_amended_has_changes (exec : GitExec) :
    has_changes exec = true ↔
      (exec ["git", "status", "--porcelain"]).exitCode = 0 ∧
      (exec ["git", "status", "--porcelain"]).stdout.trim.isEmpty = false := by
  by_cases h : (exec ["git", "status", "--porcelain"]).exitCode = 0 <;>
    simp [has_changes, run_git, h]

/-- C8: every dry-run task operation of the stand-in session performs no
filesystem write, no external command and no network call (its effect trace
is empty) and returns a non-empty descriptive string, for all arguments. -/
theorem C8_dry_run_no_effects (p : String) (o1 o2 : Option String) (cov : Bool) :
    ((mock_explain p o1).2 = [] ∧ (mock_explain p o1).1 ≠ "") ∧
    ((mock_fix p o1 o2).2 = [] ∧ (mock_fix p o1 o2).1 ≠ "") ∧
    ((mock_refactor p o1 o2).2 = [] ∧ (mock_refactor p o1 o2).1 ≠ "") ∧
    ((mock_generate_tests p cov o1 o2).2 = [] ∧
      (mock_generate_tests p cov o1 o2).1 ≠ "") ∧
    ((mock_create_commit o1 o2).2 = [] ∧ (mock_create_commit o1 o2).1 ≠ "") ∧
    ((mock_search_code p o1 o2).2 = [] ∧ (mock_search_code p o1 o2).1 ≠ "") := by
  refine ⟨⟨rfl, ?_⟩, ⟨rfl, ?_⟩, ⟨rfl, ?_⟩, ⟨rfl, ?_⟩, ⟨rfl, ?_⟩, ⟨rfl, ?_⟩⟩ <;>
    first
    | (simp only [mock_explain, mock_fix, mock_refactor, mock_generate_tests,
        mock_create_commit, mock_search_code]
       exact append4_ne_empty _ _ _ _ (by decide))

/-- C9: for every prefix and every injected clock value,
`generate_branch_name` returns exactly
`<prefix>/session-<YYYYMMDD>-<HHMMSS>` where the date part has 8 characters
and the time part 6; in particular prefix `"oca"` at clock
2024-01-01T12:00:00 yields `"oca/session-20240101-120000"`. -/
theorem C9_branch_name_format (p : String) (t : ClockTime) :
    generate_branch_name t p =
      p ++ "/session-" ++ (year4 t.year ++ pad2 t.month ++ pad2 t.day) ++ "-" ++
        (pad2 t.hour ++ pad2 t.minute ++ pad2 t.second) ∧
    (year4 t.year ++ pad2 t.month ++ pad2 t.day).length = 8 ∧
    (pad2 t.hour ++ pad2 t.minute ++ pad2 t.second).length = 6 ∧
    generate_branch_name ⟨2024, 1, 1, 12, 0, 0⟩ "oca" =
      "oca/session-20240101-120000" := by
  refine ⟨?_, ?_, ?_, by decide⟩
  · simp [generate_branch_name, strftime_stamp, String.append_assoc]
  · simp [String.length_append, year4_length, pad2_length]
  · simp [String.length_append, pad2_length]

/-- C10: with auto-commit enabled, whatever the outcomes of the session-log
write, of the `has_changes` query and of the git commit — including any
failure — a task operation (`fix`, `explain`) whose generation succeeded
still returns the generated response: `_commit_session_log` swallows every
exception internally and never propagates a failure. -/
theorem C10_log_commit_failure_swallowed (resp prompt ts : String)
    (em tf : Option String) (w c : Except String Unit) (hc : Bool)
    (st : SessState) :
    (fix_run (Except.ok resp) true w hc c prompt em tf ts st).1 =
      Except.ok resp ∧
    (explain_run (Except.ok resp) true w hc c prompt tf ts st).1 =
      Except.ok resp := by
  constructor <;> simp [fix_run, explain_run]

end OCA
